/-
Verification of the demand/revenue forecasting engine
(`Sales/database/forecast_utils.py` and
`Sales/tools/DemandForecastEngine/DemandForecastEngine.py`).

Embedding conventions:
* Dates are modelled as `ℤ` (a calendar-day index; `pd.Timedelta(days=1)`
  addition is `+ 1`).
* Exact numeric values (quantities, amounts) are modelled as `ℚ`;
  floating-point rounding is out of scope.
* A Python function that can raise is modelled as `Except PyError _`;
  a `.error` value models a Python exception escaping the call.
* The ambient NumPy global random stream used by `np.random.normal`
  in `generate_forecast` is modelled as an explicit draw sequence
  `noise : ℚ → ℕ → ℚ` (`noise sd i` is the value drawn by
  `np.random.normal(0, sd)` at loop iteration `i`).  The Python
  signature exposes no seed or stream parameter.
* `pandas.Series.std` (a floating-point square root, NaN for fewer than
  two observations) and `np.sqrt` are abstracted as parameters
  `pdStd : List ℚ → ℚ` and `sqrtQ : ℚ → ℚ`: no claim depends on their
  numeric value.  Likewise the calendar functions `dt.dayofweek` and
  `dt.month` are parameters `dowOf monthOf : ℤ → ℕ`.
* The two report-level divisions are performed by NumPy on `float64`
  values, where division by zero yields `inf`/`nan` rather than raising.
  Those values are modelled by `FloatVal`, IEEE-754 special values over
  exact rationals (signed zero is not modelled; division by the unsigned
  zero follows the `+0` convention, which matches NumPy on the inputs
  considered here).
* Database access (`fetch_sales_data`, connection handling), string
  formatting of dates, logging and matplotlib visualisation are external
  collaborators; the pipeline is modelled from the fetched rows onward.
-/
import Mathlib

/-- Python built-in exception classes that the modelled code can raise:
`ValueError` (explicit `raise` sites, invalid `pd.date_range` arguments),
`IndexError` (`.iloc` on an empty frame) and `KeyError` (missing column). -/
inductive PyError where
  | valueError : PyError
  | indexError : PyError
  | keyError : PyError
deriving DecidableEq

/-- One row of the DataFrame returned by `fetch_sales_data`:
(`Txn Date`, `Quantity`, `Net Sales Amount`).  The dimension keys
(`Item Key`, `Sales Organization Key`) play no role after fetching:
`prepare_time_series_data` groups by date only. -/
structure RawObs where
  date : ℤ
  quantity : ℚ
  amount : ℚ
deriving DecidableEq

/-- One row of the prepared daily series: (`Txn Date`, `Quantity`,
`Net Sales Amount`). -/
structure DailyRow where
  date : ℤ
  quantity : ℚ
  revenue : ℚ
deriving DecidableEq

/-- The dictionary returned by `train_forecast_model`. -/
structure ModelResult where
  model_type : String
  window_size : ℕ
  moving_avg : ℚ
  std_dev : ℚ
deriving DecidableEq

/-- The DataFrame returned by `generate_forecast`: columns `Txn Date`,
`Quantity` and, when `prediction_intervals` is set, `lower_bound` and
`upper_bound`. -/
structure ForecastDF where
  dates : List ℤ
  values : List ℚ
  bounds : Option (List ℚ × List ℚ)
deriving DecidableEq

/-- The dictionary returned by `evaluate_forecast_model`. -/
structure EvalResult where
  mae : ℚ
  mse : ℚ
  rmse : ℚ
deriving DecidableEq

/-- The statistics dictionary returned by `detect_time_series_properties`. -/
structure Stats where
  mean : ℚ
  std : ℚ
  min : ℚ
  max : ℚ
  count : ℕ
  daily_seasonality : List (ℕ × ℚ)
  monthly_seasonality : List (ℕ × ℚ)
deriving DecidableEq

/-- An IEEE-754 `float64` value over exact rationals: a finite value,
`inf`, `-inf` or `nan`.  Signed zero is not modelled. -/
inductive FloatVal where
  | finite : ℚ → FloatVal
  | infVal : FloatVal
  | negInfVal : FloatVal
  | nanVal : FloatVal
deriving DecidableEq

namespace FloatVal

/-- IEEE negation. -/
def fneg : FloatVal → FloatVal
  | .finite a => .finite (-a)
  | .infVal => .negInfVal
  | .negInfVal => .infVal
  | .nanVal => .nanVal

/-- IEEE addition (NaN propagates; `inf + -inf = nan`). -/
def fadd : FloatVal → FloatVal → FloatVal
  | .nanVal, _ => .nanVal
  | _, .nanVal => .nanVal
  | .finite a, .finite b => .finite (a + b)
  | .finite _, .infVal => .infVal
  | .finite _, .negInfVal => .negInfVal
  | .infVal, .finite _ => .infVal
  | .negInfVal, .finite _ => .negInfVal
  | .infVal, .infVal => .infVal
  | .negInfVal, .negInfVal => .negInfVal
  | .infVal, .negInfVal => .nanVal
  | .negInfVal, .infVal => .nanVal

/-- IEEE subtraction. -/
def fsub (x y : FloatVal) : FloatVal := fadd x (fneg y)

/-- IEEE multiplication (`0 * inf = nan`). -/
def fmul : FloatVal → FloatVal → FloatVal
  | .nanVal, _ => .nanVal
  | _, .nanVal => .nanVal
  | .finite a, .finite b => .finite (a * b)
  | .finite a, .infVal => if a = 0 then .nanVal else if 0 < a then .infVal else .negInfVal
  | .finite a, .negInfVal => if a = 0 then .nanVal else if 0 < a then .negInfVal else .infVal
  | .infVal, .finite b => if b = 0 then .nanVal else if 0 < b then .infVal else .negInfVal
  | .negInfVal, .finite b => if b = 0 then .nanVal else if 0 < b then .negInfVal else .infVal
  | .infVal, .infVal => .infVal
  | .infVal, .negInfVal => .negInfVal
  | .negInfVal, .infVal => .negInfVal
  | .negInfVal, .negInfVal => .infVal

/-- IEEE division (`x / 0` with `x > 0` is `inf`, `0 / 0` is `nan`,
division by the unsigned zero follows the `+0` convention). -/
def fdiv : FloatVal → FloatVal → FloatVal
  | .nanVal, _ => .nanVal
  | _, .nanVal => .nanVal
  | .finite a, .finite b =>
      if b = 0 then (if a = 0 then .nanVal else if 0 < a then .infVal else .negInfVal)
      else .finite (a / b)
  | .finite _, .infVal => .finite 0
  | .finite _, .negInfVal => .finite 0
  | .infVal, .finite b => if 0 ≤ b then .infVal else .negInfVal
  | .negInfVal, .finite b => if 0 ≤ b then .negInfVal else .infVal
  | .infVal, .infVal => .nanVal
  | .infVal, .negInfVal => .nanVal
  | .negInfVal, .infVal => .nanVal
  | .negInfVal, .negInfVal => .nanVal

/-- A float value is finite when it is neither `inf`, `-inf` nor `nan`. -/
def isFinite : FloatVal → Bool
  | .finite _ => true
  | _ => false

end FloatVal

/-- `Series.max()` on a list (`none` models the NaN/NaT result on an
empty column). -/
def listMaxO {α : Type} [LinearOrder α] : List α → Option α
  | [] => none
  | a :: as =>
    match listMaxO as with
    | none => some a
    | some m => some (max a m)

/-- `Series.min()` on a list. -/
def listMinO {α : Type} [LinearOrder α] : List α → Option α
  | [] => none
  | a :: as =>
    match listMinO as with
    | none => some a
    | some m => some (min a m)

/-- `data['Quantity'].sum()` over a prepared series. -/
def totalQuantity (data : List DailyRow) : ℚ := (data.map (·.quantity)).sum

/-- `data['Net Sales Amount'].sum()` over a prepared series. -/
def totalRevenue (data : List DailyRow) : ℚ := (data.map (·.revenue)).sum

/-- The aggregated row of one calendar day: the sums of the quantity and
amount of the observations dated `d`. -/
def dayAggregate (data : List RawObs) (d : ℤ) : DailyRow :=
  { date := d,
    quantity := ((data.filter (fun r => r.date == d)).map (·.quantity)).sum,
    revenue := ((data.filter (fun r => r.date == d)).map (·.amount)).sum }

/-- The `groupby('Txn Date').agg(sum)` step of `prepare_time_series_data`:
one row per distinct observed date, carrying that day's quantity and
amount sums.  (Key order is irrelevant: the reindex step below rebuilds
the order from the calendar range.) -/
def groupByDate (data : List RawObs) : List DailyRow :=
  ((data.map (·.date)).dedup).map (dayAggregate data)

/-- The `set_index('Txn Date').reindex(date_range(lo, hi), fill_value=0)`
step: one row per calendar day from `lo` to `hi`, zero-filled for days
with no grouped row. -/
def reindexDaily (rows : List DailyRow) (lo hi : ℤ) : List DailyRow :=
  (List.range (hi + 1 - lo).toNat).map (fun k : ℕ =>
    match rows.find? (fun r => r.date == lo + (k : ℤ)) with
    | some r => { date := lo + (k : ℤ), quantity := r.quantity, revenue := r.revenue }
    | none => { date := lo + (k : ℤ), quantity := 0, revenue := 0 })

/-- `prepare_time_series_data` (forecast_utils.py lines 129-148):
aggregate per calendar day, then reindex over the full day range
spanning the minimum to the maximum observed date, filling gaps with 0.
On an empty input the `pd.date_range` bounds are NaT; the orchestrator
never reaches this function with empty data, and the empty list models
that degenerate frame. -/
def prepare_time_series_data (data : List RawObs) : List DailyRow :=
  match listMinO (data.map (·.date)), listMaxO (data.map (·.date)) with
  | some lo, some hi => reindexDaily (groupByDate data) lo hi
  | _, _ => []

/-- `DemandForecastEngine.prepare_demand_data` from the fetched rows
onward (DemandForecastEngine.py lines 99-108): an empty fetch result is
returned as an empty frame without preparing. -/
def prepare_demand_data (fetched : List RawObs) : List DailyRow :=
  if fetched.isEmpty then [] else prepare_time_series_data fetched

/-- The mean quantity grouped by `key` of the date column
(`groupby(...)['Quantity'].mean().to_dict()`). -/
def groupMeans (key : ℤ → ℕ) (rows : List DailyRow) : List (ℕ × ℚ) :=
  ((rows.map (fun r => key r.date)).dedup).map (fun k =>
    let grp := rows.filter (fun r => key r.date == k)
    (k, ((grp.map (·.quantity)).sum) / (grp.length : ℚ)))

/-- `detect_time_series_properties` (forecast_utils.py lines 150-171):
basic statistics of the quantity column plus day-of-week and month
group means.  `none` models the empty dict returned for empty input. -/
def detect_time_series_properties (pdStd : List ℚ → ℚ) (dowOf monthOf : ℤ → ℕ)
    (data : List DailyRow) : Option Stats :=
  if data.isEmpty then none
  else
    some { mean := (totalQuantity data) / (data.length : ℚ),
           std := pdStd (data.map (·.quantity)),
           min := (listMinO (data.map (·.quantity))).getD 0,
           max := (listMaxO (data.map (·.quantity))).getD 0,
           count := data.length,
           daily_seasonality := groupMeans dowOf data,
           monthly_seasonality := groupMeans monthOf data }

/-- `DemandForecastEngine.analyze_demand_patterns` (lines 114-127). -/
def analyze_demand_patterns (pdStd : List ℚ → ℚ) (dowOf monthOf : ℤ → ℕ)
    (data : List DailyRow) : Option Stats :=
  if data.isEmpty then none
  else detect_time_series_properties pdStd dowOf monthOf data

/-- The window selection of `train_forecast_model`
(forecast_utils.py lines 176-184), first match wins. -/
def nominalWindow (forecast_periods : ℤ) : ℕ :=
  if forecast_periods ≤ 7 then 7
  else if forecast_periods ≤ 30 then 30
  else if forecast_periods ≤ 90 then 90
  else 365

/-- `train_forecast_model` (forecast_utils.py lines 173-199).
The nominal window is clamped by `min(window, len(series))` (line 186).
`rolling(w).mean().iloc[-1]` on a series of length `n ≥ w ≥ 1` is the
mean of the last `w` values, written here as the slice that drops the
first `n − w` values; on an empty series the rolling result is empty and
`.iloc[-1]` raises `IndexError`.  `rolling(w).std().iloc[-1]` is `pdStd`
of the same slice. -/
def train_forecast_model (pdStd : List ℚ → ℚ) (time_series : List DailyRow)
    (model_type : String) (forecast_periods : ℤ) : Except PyError ModelResult :=
  if model_type = "moving_average" then
    let window_size := min (nominalWindow forecast_periods) time_series.length
    let qs := time_series.map (·.quantity)
    if time_series.length = 0 then .error .indexError
    else
      .ok { model_type := "moving_average",
            window_size := window_size,
            moving_avg := (qs.drop (qs.length - window_size)).sum / (window_size : ℚ),
            std_dev := pdStd (qs.drop (qs.length - window_size)) }
  else .error .valueError

/-- The trend computation of `generate_forecast` (forecast_utils.py
lines 214-219): `(values[-1] - values[0]) / len(values)` over the whole
series when it has more than one point, else 0. -/
def trendOf (original_series : List DailyRow) : ℚ :=
  let historical_values := original_series.map (·.quantity)
  if 1 < historical_values.length then
    (historical_values.getLast?.getD 0 - historical_values.head?.getD 0)
      / (historical_values.length : ℚ)
  else 0

/-- The forecast index `pd.date_range(last_date + 1day, periods=H)`
(forecast_utils.py lines 207-212). -/
def forecastDates (last_date : ℤ) (forecast_periods : ℤ) : List ℤ :=
  (List.range forecast_periods.toNat).map (fun i : ℕ => last_date + 1 + (i : ℤ))

/-- The forecast-value loop of `generate_forecast` (forecast_utils.py
lines 222-232): for step `i` (0-based), trend component `trend * (i+1)`,
one draw `noise (std_dev * 0.5) i` of `np.random.normal(0, std_dev*0.5)`
from the ambient stream, clipped at 0. -/
def forecastValues (noise : ℚ → ℕ → ℚ) (model_result : ModelResult)
    (original_series : List DailyRow) (forecast_periods : ℤ) : List ℚ :=
  (List.range forecast_periods.toNat).map
    (fun i : ℕ => max 0 (model_result.moving_avg + trendOf original_series * ((i : ℚ) + 1)
      + noise (model_result.std_dev * (0.5 : ℚ)) i))

/-- The `lower_bound` column (forecast_utils.py line 242). -/
def lowerBoundCol (vals : List ℚ) (std_dev : ℚ) : List ℚ :=
  vals.map (fun q => q - (1.96 : ℚ) * std_dev)

/-- The `upper_bound` column (forecast_utils.py line 243). -/
def upperBoundCol (vals : List ℚ) (std_dev : ℚ) : List ℚ :=
  vals.map (fun q => q + (1.96 : ℚ) * std_dev)

/-- `generate_forecast` (forecast_utils.py lines 201-247).
`pd.date_range(last + 1, periods=H)` raises for a negative `H` and for
the NaT bound obtained from an empty series.  The `confidence_level`
argument is accepted but never read: the `z`-value is the constant
`1.96` (line 241). -/
def generate_forecast (noise : ℚ → ℕ → ℚ) (model_result : ModelResult)
    (original_series : List DailyRow) (prediction_intervals : Bool)
    (confidence_level : ℚ) (forecast_periods : ℤ) : Except PyError ForecastDF :=
  if model_result.model_type = "moving_average" then
    match listMaxO (original_series.map (·.date)) with
    | none => .error .valueError
    | some last_date =>
      if forecast_periods < 0 then .error .valueError
      else
        let forecast_values := forecastValues noise model_result original_series forecast_periods
        if prediction_intervals then
          .ok { dates := forecastDates last_date forecast_periods,
                values := forecast_values,
                bounds := some
                  (lowerBoundCol forecast_values model_result.std_dev,
                   upperBoundCol forecast_values model_result.std_dev) }
        else
          .ok { dates := forecastDates last_date forecast_periods,
                values := forecast_values, bounds := none }
  else .error .valueError

/-- `evaluate_forecast_model` (forecast_utils.py lines 249-265): the
prediction for every point is the constant `moving_avg`; MAE/MSE are
`np.mean` of the absolute/squared errors and RMSE is `np.sqrt` of MSE. -/
def evaluate_forecast_model (sqrtQ : ℚ → ℚ) (model_result : ModelResult)
    (test_data : List DailyRow) : Except PyError EvalResult :=
  if model_result.model_type = "moving_average" then
    let actual := test_data.map (·.quantity)
    let mae := (actual.map (fun a => |a - model_result.moving_avg|)).sum / (actual.length : ℚ)
    let mse := (actual.map (fun a => (a - model_result.moving_avg) ^ 2)).sum / (actual.length : ℚ)
    .ok { mae := mae, mse := mse, rmse := sqrtQ mse }
  else .error .valueError

/-- The `period_map` dictionary of `generate_forecast_for_period`
(DemandForecastEngine.py lines 135-140). -/
def periodMap (period : String) : Option ℤ :=
  if period = "week" then some 7
  else if period = "month" then some 30
  else if period = "quarter" then some 90
  else if period = "year" then some 365
  else none

/-- The revenue-metrics dictionary of the forecast report. -/
structure RevenueMetrics where
  total_forecast_revenue : FloatVal
  average_daily_revenue : FloatVal
  revenue_growth_percentage : FloatVal
  average_price_per_unit : FloatVal
deriving DecidableEq

/-- The report dictionary returned by `generate_forecast_for_period`
(minus the visualisation side effect, which only prints). -/
structure ForecastReport where
  dates : List ℤ
  values : List ℚ
  revenue : List FloatVal
  lower_bound : List ℚ
  upper_bound : List ℚ
  revenue_lower_bound : List FloatVal
  revenue_upper_bound : List FloatVal
  evaluation : EvalResult
  patterns : Option Stats
  revenue_metrics : RevenueMetrics
deriving DecidableEq

/-- `avg_price_per_unit` (DemandForecastEngine.py line 161): the NumPy
`float64` division of the total historical amount by the total
historical quantity, over the whole prepared series. -/
def avgPriceOf (data : List DailyRow) : FloatVal :=
  FloatVal.fdiv (.finite (totalRevenue data)) (.finite (totalQuantity data))

/-- A revenue column (DemandForecastEngine.py lines 164-166): a quantity
column scaled by the (possibly non-finite) average price. -/
def revenueCol (vals : List ℚ) (price : FloatVal) : List FloatVal :=
  vals.map (fun q => FloatVal.fmul (.finite q) price)

/-- The body of `generate_forecast_for_period` after the period lookup
and data preparation (DemandForecastEngine.py lines 150-199).  The two
divisions at lines 161 and 174-175 are NumPy `float64` divisions and are
modelled with `FloatVal.fdiv`; every other arithmetic step stays exact.
`.iloc[0]`/`.iloc[-1]` of the revenue column raise `IndexError` on an
empty forecast, modelled by the emptiness guard. -/
def reportFromData (pdStd : List ℚ → ℚ) (sqrtQ : ℚ → ℚ) (dowOf monthOf : ℤ → ℕ)
    (noise : ℚ → ℕ → ℚ) (data : List DailyRow) (forecast_periods : ℤ) :
    Except PyError (Option ForecastReport) :=
  if data.isEmpty then .ok none
  else
    let patterns := analyze_demand_patterns pdStd dowOf monthOf data
    match train_forecast_model pdStd data "moving_average" forecast_periods with
    | .error e => .error e
    | .ok model_result =>
      match generate_forecast noise model_result data true (95 / 100) forecast_periods with
      | .error e => .error e
      | .ok forecast_df =>
        match forecast_df.bounds with
        | none => .error .keyError
        | some (lob, upb) =>
          let avg_price := avgPriceOf data
          let revenue := revenueCol forecast_df.values avg_price
          let rlo := revenueCol lob avg_price
          let rhi := revenueCol upb avg_price
          match evaluate_forecast_model sqrtQ model_result data with
          | .error e => .error e
          | .ok evaluation =>
            if revenue.isEmpty then .error .indexError
            else
              let total := revenue.foldl FloatVal.fadd (.finite 0)
              let avg_daily := FloatVal.fdiv total (.finite (revenue.length : ℚ))
              let growth := FloatVal.fmul
                (FloatVal.fdiv
                  (FloatVal.fsub ((revenue.getLast?).getD (.finite 0))
                    ((revenue.head?).getD (.finite 0)))
                  ((revenue.head?).getD (.finite 0)))
                (.finite 100)
              .ok (some
                { dates := forecast_df.dates,
                  values := forecast_df.values,
                  revenue := revenue,
                  lower_bound := lob,
                  upper_bound := upb,
                  revenue_lower_bound := rlo,
                  revenue_upper_bound := rhi,
                  evaluation := evaluation,
                  patterns := patterns,
                  revenue_metrics :=
                    { total_forecast_revenue := total,
                      average_daily_revenue := avg_daily,
                      revenue_growth_percentage := growth,
                      average_price_per_unit := avg_price } })

/-- `DemandForecastEngine.generate_forecast_for_period`
(DemandForecastEngine.py lines 129-203), from the fetched rows onward.
An unknown period keyword raises `ValueError` (line 143); the
`except` block at lines 201-203 only logs and re-raises, so a `.error`
result models a Python exception escaping the call.  An empty fetch
yields the empty dict `{}`, modelled as `.ok none`. -/
def generate_forecast_for_period (pdStd : List ℚ → ℚ) (sqrtQ : ℚ → ℚ)
    (dowOf monthOf : ℤ → ℕ) (noise : ℚ → ℕ → ℚ) (fetched : List RawObs)
    (period : String) : Except PyError (Option ForecastReport) :=
  match periodMap period with
  | none => .error .valueError
  | some forecast_periods =>
      reportFromData pdStd sqrtQ dowOf monthOf noise
        (prepare_demand_data fetched) forecast_periods

/-! ### Concrete instantiations used by counterexamples and witnesses -/

/-- Zero instantiation of the abstracted `Series.std` computation. -/
def stdZero : List ℚ → ℚ := fun _ => 0

/-- Zero instantiation of the abstracted `np.sqrt` computation. -/
def sqrtZero : ℚ → ℚ := fun _ => 0

/-- Trivial calendar key (all days in one bucket). -/
def keyZero : ℤ → ℕ := fun _ => 0

/-- An ambient random stream that happens to draw 0 at every step. -/
def noiseZero : ℚ → ℕ → ℚ := fun _ _ => 0

/-- An ambient random stream that draws 1 at every step. -/
def noiseOne : ℚ → ℕ → ℚ := fun _ _ => 1

/-- An ambient random stream whose first draw is −10 and the rest 0. -/
def noiseDrop : ℚ → ℕ → ℚ := fun _ i => if i = 0 then -10 else 0

/-- One fetched row with quantity 0 and amount 5: total historical
quantity is 0. -/
def fetchedZeroQty : List RawObs := [{ date := 0, quantity := 0, amount := 5 }]

/-- Two fetched rows, quantity 10 and amount 20 each day. -/
def fetchedTwoDays : List RawObs :=
  [{ date := 0, quantity := 10, amount := 20 },
   { date := 1, quantity := 10, amount := 20 }]

/-- Ten fetched rows, one per day: quantity 1 each day, amount 3 on the
first three days and 1 on the last seven.  The price ratio over the
whole series is 16/10 = 8/5, while over the last 7 days it is 1. -/
def fetchedTenDays : List RawObs :=
  [{ date := 0, quantity := 1, amount := 3 },
   { date := 1, quantity := 1, amount := 3 },
   { date := 2, quantity := 1, amount := 3 },
   { date := 3, quantity := 1, amount := 1 },
   { date := 4, quantity := 1, amount := 1 },
   { date := 5, quantity := 1, amount := 1 },
   { date := 6, quantity := 1, amount := 1 },
   { date := 7, quantity := 1, amount := 1 },
   { date := 8, quantity := 1, amount := 1 },
   { date := 9, quantity := 1, amount := 1 }]

/-- A two-day prepared series used to exercise `generate_forecast`
directly. -/
def seriesTwo : List DailyRow :=
  [{ date := 0, quantity := 5, revenue := 10 },
   { date := 1, quantity := 7, revenue := 14 }]

/-- A fitted model value used to exercise `generate_forecast` directly. -/
def modelTwo : ModelResult :=
  { model_type := "moving_average", window_size := 2, moving_avg := 6, std_dev := 1 }

/-- Projection through the `.ok (some _)` constructors of an orchestrator
result (`none` when the call raised or returned the empty dict). -/
def reportField {α : Type} (f : ForecastReport → α) :
    Except PyError (Option ForecastReport) → Option α
  | .ok (some r) => some (f r)
  | _ => none

/-- Modelled from the spec's words, for comparison with the code (claim
C2): the price ratio "total historical revenue / total historical
quantity over the fit window", i.e. over the last `w` days of the
prepared series. -/
def specFitWindowPrice (data : List DailyRow) (w : ℕ) : ℚ :=
  ((data.map (·.revenue)).rtake w).sum / ((data.map (·.quantity)).rtake w).sum

/-! ### Helper lemmas about `listMaxO` and `listMinO` -/

lemma listMaxO_ne_nil {α : Type} [LinearOrder α] (l : List α) (h : l ≠ []) :
    ∃ m, listMaxO l = some m := by
  cases l with
  | nil => exact absurd rfl h
  | cons a as =>
    cases has : listMaxO as with
    | none => exact ⟨a, by simp [listMaxO, has]⟩
    | some m => exact ⟨max a m, by simp [listMaxO, has]⟩

lemma listMaxO_mem {α : Type} [LinearOrder α] :
    ∀ {l : List α} {m : α}, listMaxO l = some m → m ∈ l := by
  intro l
  induction l with
  | nil => intro m h; simp [listMaxO] at h
  | cons a as ih =>
    intro m h
    cases has : listMaxO as with
    | none =>
      rw [listMaxO, has] at h
      simp at h
      simp [h]
    | some m' =>
      rw [listMaxO, has] at h
      simp at h
      rcases max_choice a m' with hc | hc <;> rw [hc] at h
      · simp [h]
      · simp [ih (h ▸ has)]

lemma listMaxO_le {α : Type} [LinearOrder α] :
    ∀ {l : List α} {m : α}, listMaxO l = some m → ∀ x ∈ l, x ≤ m := by
  intro l
  induction l with
  | nil => intro m _ x hx; simp at hx
  | cons a as ih =>
    intro m h x hx
    cases has : listMaxO as with
    | none =>
      cases as with
      | nil =>
        rw [listMaxO] at h
        simp [listMaxO] at h
        simp at hx
        simp [hx, h]
      | cons b bs => rw [listMaxO] at has; cases hbs : listMaxO bs <;> simp [hbs] at has
    | some m' =>
      rw [listMaxO, has] at h
      simp at h
      rcases List.mem_cons.mp hx with hxa | hxas
      · exact h ▸ hxa ▸ le_max_left a m'
      · exact h ▸ le_trans (ih has x hxas) (le_max_right a m')

lemma listMaxO_eq_of {α : Type} [LinearOrder α] {l : List α} {a : α}
    (ha : a ∈ l) (hle : ∀ x ∈ l, x ≤ a) : listMaxO l = some a := by
  obtain ⟨m, hm⟩ := listMaxO_ne_nil l (List.ne_nil_of_mem ha)
  have h1 := listMaxO_mem hm
  have h2 := listMaxO_le hm a ha
  rw [hm, le_antisymm (hle m h1) h2]

lemma listMinO_ne_nil {α : Type} [LinearOrder α] (l : List α) (h : l ≠ []) :
    ∃ m, listMinO l = some m := by
  cases l with
  | nil => exact absurd rfl h
  | cons a as =>
    cases has : listMinO as with
    | none => exact ⟨a, by simp [listMinO, has]⟩
    | some m => exact ⟨min a m, by simp [listMinO, has]⟩

lemma listMinO_mem {α : Type} [LinearOrder α] :
    ∀ {l : List α} {m : α}, listMinO l = some m → m ∈ l := by
  intro l
  induction l with
  | nil => intro m h; simp [listMinO] at h
  | cons a as ih =>
    intro m h
    cases has : listMinO as with
    | none =>
      rw [listMinO, has] at h
      simp at h
      simp [h]
    | some m' =>
      rw [listMinO, has] at h
      simp at h
      rcases min_choice a m' with hc | hc <;> rw [hc] at h
      · simp [h]
      · simp [ih (h ▸ has)]

lemma listMinO_le {α : Type} [LinearOrder α] :
    ∀ {l : List α} {m : α}, listMinO l = some m → ∀ x ∈ l, m ≤ x := by
  intro l
  induction l with
  | nil => intro m _ x hx; simp at hx
  | cons a as ih =>
    intro m h x hx
    cases has : listMinO as with
    | none =>
      cases as with
      | nil =>
        rw [listMinO] at h
        simp [listMinO] at h
        simp at hx
        simp [hx, h]
      | cons b bs => rw [listMinO] at has; cases hbs : listMinO bs <;> simp [hbs] at has
    | some m' =>
      rw [listMinO, has] at h
      simp at h
      rcases List.mem_cons.mp hx with hxa | hxas
      · exact h ▸ hxa ▸ min_le_left a m'
      · exact h ▸ le_trans (min_le_right a m') (ih has x hxas)

/-! ### Reduction lemmas for the pipeline stages -/

/-- The fitted model returned by `train_forecast_model` on a non-empty
series: derived closed form, used only to state reduction lemmas. -/
def fittedModel (pdStd : List ℚ → ℚ) (ts : List DailyRow) (H : ℤ) : ModelResult :=
  { model_type := "moving_average",
    window_size := min (nominalWindow H) ts.length,
    moving_avg :=
      ((ts.map (·.quantity)).drop (ts.length - min (nominalWindow H) ts.length)).sum
        / ((min (nominalWindow H) ts.length : ℕ) : ℚ),
    std_dev :=
      pdStd ((ts.map (·.quantity)).drop (ts.length - min (nominalWindow H) ts.length)) }

/-- The evaluation returned by `evaluate_forecast_model` for a
moving-average model: derived closed form. -/
def evalOf (sqrtQ : ℚ → ℚ) (m : ModelResult) (ts : List DailyRow) : EvalResult :=
  { mae := ((ts.map (·.quantity)).map (fun a => |a - m.moving_avg|)).sum / (ts.length : ℚ),
    mse := ((ts.map (·.quantity)).map (fun a => (a - m.moving_avg) ^ 2)).sum / (ts.length : ℚ),
    rmse := sqrtQ (((ts.map (·.quantity)).map
      (fun a => (a - m.moving_avg) ^ 2)).sum / (ts.length : ℚ)) }

lemma train_forecast_model_ok (pdStd : List ℚ → ℚ) (ts : List DailyRow) (H : ℤ)
    (hs : ts ≠ []) :
    train_forecast_model pdStd ts "moving_average" H = .ok (fittedModel pdStd ts H) := by
  have h0 : ¬ ts.length = 0 := fun h => hs (List.length_eq_zero.mp h)
  simp [train_forecast_model, h0, fittedModel]

lemma generate_forecast_eq (noise : ℚ → ℕ → ℚ) (m : ModelResult) (s : List DailyRow)
    (pi : Bool) (cl : ℚ) (H : ℤ) (last_date : ℤ)
    (hm : m.model_type = "moving_average") (hH : 0 ≤ H)
    (hmax : listMaxO (s.map (·.date)) = some last_date) :
    generate_forecast noise m s pi cl H = .ok
      { dates := forecastDates last_date H,
        values := forecastValues noise m s H,
        bounds := if pi then
            some (lowerBoundCol (forecastValues noise m s H) m.std_dev,
                  upperBoundCol (forecastValues noise m s H) m.std_dev)
          else none } := by
  have h1 : ¬ H < 0 := not_lt.mpr hH
  cases pi <;> simp [generate_forecast, hm, hmax, h1]

lemma evaluate_forecast_model_ok (sqrtQ : ℚ → ℚ) (m : ModelResult) (ts : List DailyRow)
    (hm : m.model_type = "moving_average") :
    evaluate_forecast_model sqrtQ m ts = .ok (evalOf sqrtQ m ts) := by
  simp [evaluate_forecast_model, hm, evalOf]

lemma forecastValues_length (noise : ℚ → ℕ → ℚ) (m : ModelResult) (s : List DailyRow) (H : ℤ) :
    (forecastValues noise m s H).length = H.toNat := by
  simp [forecastValues]

lemma forecastDates_length (last_date : ℤ) (H : ℤ) :
    (forecastDates last_date H).length = H.toNat := by
  simp [forecastDates]

lemma chain_date_le_getLast :
    ∀ (s : List DailyRow) (hs : s ≠ []),
      List.Chain' (fun a b => b.date = a.date + 1) s →
      ∀ r ∈ s, r.date ≤ (s.getLast hs).date := by
  intro s
  induction s with
  | nil => intro hs; exact absurd rfl hs
  | cons a as ih =>
    intro hs hc r hr
    cases as with
    | nil =>
      simp at hr
      simp [hr, List.getLast]
    | cons b bs =>
      have hbs : (b :: bs) ≠ [] := by simp
      rw [List.getLast_cons hbs]
      have hc2 : List.Chain' (fun x y => y.date = x.date + 1) (b :: bs) := hc.tail
      have hab : b.date = a.date + 1 := (List.chain'_cons.mp hc).1
      rcases List.mem_cons.mp hr with h1 | h2
      · have hb : b.date ≤ ((b :: bs).getLast hbs).date := ih hbs hc2 b (by simp)
        rw [h1]
        omega
      · exact ih hbs hc2 r h2

lemma maxDate_eq_getLast (s : List DailyRow) (hs : s ≠ [])
    (hc : List.Chain' (fun a b => b.date = a.date + 1) s) :
    listMaxO (s.map (·.date)) = some ((s.getLast hs).date) := by
  apply listMaxO_eq_of
  · exact List.mem_map.mpr ⟨s.getLast hs, List.getLast_mem hs, rfl⟩
  · intro x hx
    obtain ⟨r, hr, rfl⟩ := List.mem_map.mp hx
    exact chain_date_le_getLast s hs hc r hr

/-! ### Characterisation of `prepare_time_series_data` -/

lemma find_dayAggregate (data : List RawObs) (ds : List ℤ) (x : ℤ) :
    (ds.map (dayAggregate data)).find? (fun r => r.date == x)
      = if x ∈ ds then some (dayAggregate data x) else none := by
  induction ds with
  | nil => simp
  | cons d ds ih =>
    by_cases hdx : d = x
    · subst hdx
      simp [List.find?_cons, dayAggregate]
    · have hpred : ((dayAggregate data d).date == x) = false := by
        simp [dayAggregate, hdx]
      have hxd : ¬ x = d := fun h => hdx h.symm
      simp [List.find?_cons, hpred, ih, hxd]

lemma prepare_time_series_data_eq (data : List RawObs) (lo hi : ℤ)
    (hmin : listMinO (data.map (·.date)) = some lo)
    (hmax : listMaxO (data.map (·.date)) = some hi) :
    prepare_time_series_data data
      = (List.range (hi + 1 - lo).toNat).map (fun k : ℕ => dayAggregate data (lo + (k : ℤ))) := by
  simp only [prepare_time_series_data, hmin, hmax, reindexDaily, groupByDate]
  apply List.map_congr_left
  intro k _
  rw [find_dayAggregate]
  by_cases hmem : lo + (k : ℤ) ∈ (data.map (·.date)).dedup
  · simp [hmem, dayAggregate]
  · have hnotin : lo + (k : ℤ) ∉ data.map (·.date) :=
      fun hin => hmem (List.mem_dedup.mpr hin)
    have hfilter : data.filter (fun r => r.date == lo + (k : ℤ)) = [] := by
      rw [List.filter_eq_nil_iff]
      intro r hr hpred
      exact hnotin (List.mem_map.mpr ⟨r, hr, by simpa using hpred⟩)
    simp [hmem, dayAggregate, hfilter]

/-- The report assembled by `generate_forecast_for_period` on a
non-empty prepared series with a positive horizon: derived closed form,
used only to state reduction lemmas. -/
def reportOf (pdStd : List ℚ → ℚ) (sqrtQ : ℚ → ℚ) (dowOf monthOf : ℤ → ℕ)
    (noise : ℚ → ℕ → ℚ) (data : List DailyRow) (H : ℤ) (last_date : ℤ) : ForecastReport :=
  let m := fittedModel pdStd data H
  let vals := forecastValues noise m data H
  let price := avgPriceOf data
  let revenue := revenueCol vals price
  { dates := forecastDates last_date H,
    values := vals,
    revenue := revenue,
    lower_bound := lowerBoundCol vals m.std_dev,
    upper_bound := upperBoundCol vals m.std_dev,
    revenue_lower_bound := revenueCol (lowerBoundCol vals m.std_dev) price,
    revenue_upper_bound := revenueCol (upperBoundCol vals m.std_dev) price,
    evaluation := evalOf sqrtQ m data,
    patterns := analyze_demand_patterns pdStd dowOf monthOf data,
    revenue_metrics :=
      { total_forecast_revenue := revenue.foldl FloatVal.fadd (.finite 0),
        average_daily_revenue :=
          FloatVal.fdiv (revenue.foldl FloatVal.fadd (.finite 0))
            (.finite (revenue.length : ℚ)),
        revenue_growth_percentage :=
          FloatVal.fmul
            (FloatVal.fdiv
              (FloatVal.fsub ((revenue.getLast?).getD (.finite 0))
                ((revenue.head?).getD (.finite 0)))
              ((revenue.head?).getD (.finite 0)))
            (.finite 100),
        average_price_per_unit := price } }

lemma reportFromData_ok (pdStd : List ℚ → ℚ) (sqrtQ : ℚ → ℚ) (dowOf monthOf : ℤ → ℕ)
    (noise : ℚ → ℕ → ℚ) (data : List DailyRow) (H : ℤ) (last_date : ℤ)
    (hd : data ≠ []) (hH : 0 < H)
    (hmax : listMaxO (data.map (·.date)) = some last_date) :
    reportFromData pdStd sqrtQ dowOf monthOf noise data H
      = .ok (some (reportOf pdStd sqrtQ dowOf monthOf noise data H last_date)) := by
  have hde : ¬ data.isEmpty := by simp [List.isEmpty_iff, hd]
  have hm : (fittedModel pdStd data H).model_type = "moving_average" := rfl
  have hrevne :
      (revenueCol (forecastValues noise (fittedModel pdStd data H) data H)
        (avgPriceOf data)).isEmpty = false := by
    have hlen : (revenueCol (forecastValues noise (fittedModel pdStd data H) data H)
        (avgPriceOf data)).length = H.toNat := by
      simp [revenueCol, forecastValues]
    have : H.toNat ≠ 0 := by omega
    simp [List.isEmpty_iff, ← List.length_eq_zero, hlen, this]
  have hde2 : data.isEmpty = false := by simp [List.isEmpty_iff, hd]
  simp only [reportFromData, hde2, Bool.false_eq_true, if_false,
    train_forecast_model_ok pdStd data H hd,
    generate_forecast_eq noise (fittedModel pdStd data H) data true (95 / 100) H
      last_date hm (le_of_lt hH) hmax,
    evaluate_forecast_model_ok sqrtQ (fittedModel pdStd data H) data hm,
    hrevne, reportOf, if_true]

lemma periodMap_pos {p : String} {H : ℤ} (h : periodMap p = some H) : 0 < H := by
  unfold periodMap at h
  split_ifs at h <;> simp at h <;> omega

/-! ### Claim theorems -/

/-- C1 (amended): `generate_forecast_for_period` does not convert
failures into a typed error result.  An unknown period keyword raises
`ValueError`, which the `except` block logs and re-raises, so the raw
exception propagates to the caller (modelled by the `.error` result);
only the empty-data case yields the structured empty dict. -/
theorem c1_exceptions_propagate (pdStd : List ℚ → ℚ) (sqrtQ : ℚ → ℚ)
    (dowOf monthOf : ℤ → ℕ) (noise : ℚ → ℕ → ℚ) (fetched : List RawObs) (period : String) :
    (periodMap period = none →
      generate_forecast_for_period pdStd sqrtQ dowOf monthOf noise fetched period
        = .error .valueError) ∧
    (∀ H : ℤ, periodMap period = some H → fetched = [] →
      generate_forecast_for_period pdStd sqrtQ dowOf monthOf noise fetched period
        = .ok none) := by
  constructor
  · intro h
    simp [generate_forecast_for_period, h]
  · intro H hH hf
    subst hf
    simp [generate_forecast_for_period, hH, prepare_demand_data, reportFromData]

/-- C1 (counterexample): with the unknown period keyword `"decade"` the
call raises `ValueError` (line 143, re-raised at line 203) instead of
returning a typed error result — contradicting the claim that no raw
exception crosses the subsystem boundary. -/
theorem c1_counterexample :
    generate_forecast_for_period stdZero sqrtZero keyZero keyZero noiseZero
      fetchedTwoDays "decade" = .error .valueError := by
  simp [generate_forecast_for_period, periodMap]

/-- C3 (amended): the output of `generate_forecast` is a function of the
model, series, flags, horizon and the first `H` draws of the ambient
random stream; the interface itself exposes no seed parameter. -/
theorem c3_output_determined_by_draws (noise1 noise2 : ℚ → ℕ → ℚ) (m : ModelResult)
    (s : List DailyRow) (pi : Bool) (cl : ℚ) (H : ℤ)
    (h : ∀ sd : ℚ, ∀ i < H.toNat, noise1 sd i = noise2 sd i) :
    generate_forecast noise1 m s pi cl H = generate_forecast noise2 m s pi cl H := by
  have hv : forecastValues noise1 m s H = forecastValues noise2 m s H := by
    unfold forecastValues
    apply List.map_congr_left
    intro i hi
    rw [h _ i (List.mem_range.mp hi)]
  unfold generate_forecast
  rw [hv]

/-- C4 (amended): with a series of length 0 the fit raises an untyped
`IndexError` (from taking `.iloc[-1]` of the empty rolling result) — no
typed `InsufficientDataError` exists in the code; for every series of
length at least 1 it raises nothing. -/
theorem c4_empty_series_raises (pdStd : List ℚ → ℚ) (H : ℤ) (ts : List DailyRow) :
    train_forecast_model pdStd [] "moving_average" H = .error .indexError ∧
    (ts ≠ [] → ∃ m, train_forecast_model pdStd ts "moving_average" H = .ok m) := by
  constructor
  · simp [train_forecast_model]
  · intro hs
    exact ⟨_, train_forecast_model_ok pdStd ts H hs⟩

/-- C4 (counterexample): on the empty series the fit fails with the
generic built-in `IndexError`, not with a typed `InsufficientDataError`
(no such error class exists anywhere in the code). -/
theorem c4_counterexample :
    train_forecast_model stdZero [] "moving_average" 30 = .error .indexError := by
  simp [train_forecast_model]

/-- C5: the fitted window is the first-match-wins nominal window
(H≤7→7, H≤30→30, H≤90→90, else 365) clamped to the series length — in
particular it equals the series length when the series is shorter than
the nominal window — and the moving average is the arithmetic mean of
the last `window_size` quantity values. -/
theorem c5_window_clamp_and_mean (pdStd : List ℚ → ℚ) (ts : List DailyRow) (H : ℤ)
    (hs : ts ≠ []) :
    ∃ m, train_forecast_model pdStd ts "moving_average" H = .ok m ∧
      m.window_size = min
        (if H ≤ 7 then 7 else if H ≤ 30 then 30 else if H ≤ 90 then 90 else 365)
        ts.length ∧
      (ts.length < (if H ≤ 7 then 7 else if H ≤ 30 then 30 else if H ≤ 90 then 90 else 365) →
        m.window_size = ts.length) ∧
      m.moving_avg = ((ts.map (·.quantity)).rtake m.window_size).sum / (m.window_size : ℚ) := by
  refine ⟨fittedModel pdStd ts H, train_forecast_model_ok pdStd ts H hs, ?_, ?_, ?_⟩
  · rfl
  · intro h
    simp only [fittedModel, nominalWindow]
    omega
  · simp [fittedModel, List.rtake, nominalWindow]

/-- C6: on a non-empty daily series (consecutive strictly increasing
dates) and positive horizon `H`, the generator returns exactly `H` rows
whose dates are the consecutive calendar days starting the day after the
series' last date. -/
theorem c6_forecast_dates (noise : ℚ → ℕ → ℚ) (m : ModelResult) (s : List DailyRow)
    (pi : Bool) (cl : ℚ) (H : ℤ)
    (hm : m.model_type = "moving_average") (hs : s ≠ []) (hH : 0 < H)
    (hchain : List.Chain' (fun a b => b.date = a.date + 1) s) :
    ∃ df, generate_forecast noise m s pi cl H = .ok df ∧
      df.dates.length = H.toNat ∧ df.values.length = H.toNat ∧
      ∀ k (hk : k < df.dates.length),
        df.dates.get ⟨k, hk⟩ = (s.getLast hs).date + 1 + (k : ℤ) := by
  have hmax := maxDate_eq_getLast s hs hchain
  refine ⟨_, generate_forecast_eq noise m s pi cl H _ hm (le_of_lt hH) hmax, ?_, ?_, ?_⟩
  · simp [forecastDates]
  · simp [forecastValues]
  · intro k hk
    simp [forecastDates, List.get_eq_getElem]

/-- C7: each point forecast at step `i` (1-based) equals
`max(0, moving_average + trend*i + noise_i)` with the trend computed as
`(last − first) / length` over the entire series (0 for a single-point
series); consequently every point forecast is non-negative. -/
theorem c7_point_formula (noise : ℚ → ℕ → ℚ) (m : ModelResult) (s : List DailyRow)
    (pi : Bool) (cl : ℚ) (H : ℤ)
    (hm : m.model_type = "moving_average") (hs : s ≠ []) (hH : 0 ≤ H) :
    ∃ df, generate_forecast noise m s pi cl H = .ok df ∧
      ∀ k (hk : k < df.values.length),
        df.values.get ⟨k, hk⟩
          = max 0 (m.moving_avg
              + (if 1 < s.length then
                  ((s.map (·.quantity)).getLast?.getD 0 - (s.map (·.quantity)).head?.getD 0)
                    / (s.length : ℚ)
                 else 0) * ((k : ℚ) + 1) + noise (m.std_dev * (0.5 : ℚ)) k) ∧
        0 ≤ df.values.get ⟨k, hk⟩ := by
  obtain ⟨last, hmax⟩ := listMaxO_ne_nil (s.map (·.date)) (by simpa using hs)
  refine ⟨_, generate_forecast_eq noise m s pi cl H last hm hH hmax, ?_⟩
  intro k hk
  constructor
  · simp [forecastValues, trendOf, List.get_eq_getElem]
  · simp only [forecastValues, List.get_eq_getElem, List.getElem_map, List.getElem_range]
    exact le_max_left 0 _

/-- C8: when prediction intervals are requested the bounds columns are
exactly `value ∓ 1.96 · residual_std`, and the `confidence_level`
argument has no influence on the output. -/
theorem c8_interval_bounds (noise : ℚ → ℕ → ℚ) (m : ModelResult) (s : List DailyRow)
    (cl cl2 : ℚ) (H : ℤ)
    (hm : m.model_type = "moving_average") (hs : s ≠ []) (hH : 0 ≤ H) :
    ∃ df, generate_forecast noise m s true cl H = .ok df ∧
      df.bounds = some (df.values.map (fun q => q - (1.96 : ℚ) * m.std_dev),
                        df.values.map (fun q => q + (1.96 : ℚ) * m.std_dev)) ∧
      generate_forecast noise m s true cl H = generate_forecast noise m s true cl2 H := by
  obtain ⟨last, hmax⟩ := listMaxO_ne_nil (s.map (·.date)) (by simpa using hs)
  refine ⟨_, generate_forecast_eq noise m s true cl H last hm hH hmax, ?_, ?_⟩
  · simp [lowerBoundCol, upperBoundCol]
  · rw [generate_forecast_eq noise m s true cl H last hm hH hmax,
      generate_forecast_eq noise m s true cl2 H last hm hH hmax]

/-- C9: on a non-empty observation set the prepared series has exactly
one row per calendar day from the minimum to the maximum observed date
(dates `lo + k`, hence strictly increasing, consecutive, no gaps or
duplicates), and each day's quantity and revenue are the sums of that
day's observations (zero for days with no observations). -/
theorem c9_prepared_series_invariant (data : List RawObs) (hne : data ≠ []) :
    ∃ lo hi, listMinO (data.map (·.date)) = some lo
      ∧ listMaxO (data.map (·.date)) = some hi
      ∧ lo ≤ hi
      ∧ (prepare_time_series_data data).length = (hi + 1 - lo).toNat
      ∧ ∀ k (hk : k < (prepare_time_series_data data).length),
          (prepare_time_series_data data).get ⟨k, hk⟩
            = { date := lo + (k : ℤ),
                quantity := ((data.filter (fun r => r.date == lo + (k : ℤ))).map (·.quantity)).sum,
                revenue := ((data.filter (fun r => r.date == lo + (k : ℤ))).map (·.amount)).sum } := by
  have hmapne : data.map (·.date) ≠ [] := by simpa using hne
  obtain ⟨lo, hmin⟩ := listMinO_ne_nil _ hmapne
  obtain ⟨hi, hmax⟩ := listMaxO_ne_nil _ hmapne
  have hlohi : lo ≤ hi := listMaxO_le hmax lo (listMinO_mem hmin)
  have hp := prepare_time_series_data_eq data lo hi hmin hmax
  refine ⟨lo, hi, hmin, hmax, hlohi, ?_, ?_⟩
  · rw [hp]
    simp
  · intro k hk
    rw [List.get_of_eq hp ⟨k, hk⟩]
    simp [List.get_eq_getElem, dayAggregate]

/-- C2 (amended): every revenue value (point, lower, upper) equals the
corresponding quantity value times `total historical revenue / total
historical quantity` computed over the ENTIRE prepared series, not over
the fit window. -/
theorem c2_revenue_uses_whole_series_price (pdStd : List ℚ → ℚ) (sqrtQ : ℚ → ℚ)
    (dowOf monthOf : ℤ → ℕ) (noise : ℚ → ℕ → ℚ) (fetched : List RawObs)
    (period : String) (H : ℤ)
    (hp : periodMap period = some H)
    (hd : prepare_demand_data fetched ≠ [])
    (hq : totalQuantity (prepare_demand_data fetched) ≠ 0) :
    ∃ r, generate_forecast_for_period pdStd sqrtQ dowOf monthOf noise fetched period
        = .ok (some r) ∧
      r.revenue = r.values.map (fun q => FloatVal.finite
        (q * (totalRevenue (prepare_demand_data fetched)
              / totalQuantity (prepare_demand_data fetched)))) ∧
      r.revenue_lower_bound = r.lower_bound.map (fun q => FloatVal.finite
        (q * (totalRevenue (prepare_demand_data fetched)
              / totalQuantity (prepare_demand_data fetched)))) ∧
      r.revenue_upper_bound = r.upper_bound.map (fun q => FloatVal.finite
        (q * (totalRevenue (prepare_demand_data fetched)
              / totalQuantity (prepare_demand_data fetched)))) := by
  have hH : 0 < H := periodMap_pos hp
  obtain ⟨last, hmax⟩ :=
    listMaxO_ne_nil ((prepare_demand_data fetched).map (·.date)) (by simpa using hd)
  refine ⟨reportOf pdStd sqrtQ dowOf monthOf noise (prepare_demand_data fetched) H last,
    ?_, ?_, ?_, ?_⟩
  · simp [generate_forecast_for_period, hp,
      reportFromData_ok pdStd sqrtQ dowOf monthOf noise
        (prepare_demand_data fetched) H last hd hH hmax]
  · simp [reportOf, revenueCol, avgPriceOf, FloatVal.fdiv, hq, FloatVal.fmul]
  · simp [reportOf, revenueCol, avgPriceOf, FloatVal.fdiv, hq, FloatVal.fmul]
  · simp [reportOf, revenueCol, avgPriceOf, FloatVal.fdiv, hq, FloatVal.fmul]

/-! ### Concrete evaluations -/

lemma prepare_fetchedZeroQty :
    prepare_demand_data fetchedZeroQty = [{ date := 0, quantity := 0, revenue := 5 }] := by
  have hmin : listMinO (fetchedZeroQty.map (·.date)) = some 0 := by
    norm_num [fetchedZeroQty, listMinO]
  have hmax : listMaxO (fetchedZeroQty.map (·.date)) = some 0 := by
    norm_num [fetchedZeroQty, listMaxO]
  rw [prepare_demand_data, if_neg (by simp [fetchedZeroQty]),
    prepare_time_series_data_eq fetchedZeroQty 0 0 hmin hmax]
  simp [show ((0:ℤ) + 1 - 0).toNat = 1 from rfl, show List.range 1 = [0] from rfl,
    dayAggregate, fetchedZeroQty, List.filter_cons]

lemma prepare_fetchedTwoDays :
    prepare_demand_data fetchedTwoDays
      = [{ date := 0, quantity := 10, revenue := 20 },
         { date := 1, quantity := 10, revenue := 20 }] := by
  have hmin : listMinO (fetchedTwoDays.map (·.date)) = some 0 := by
    norm_num [fetchedTwoDays, listMinO, min_def]
  have hmax : listMaxO (fetchedTwoDays.map (·.date)) = some 1 := by
    norm_num [fetchedTwoDays, listMaxO, max_def]
  rw [prepare_demand_data, if_neg (by simp [fetchedTwoDays]),
    prepare_time_series_data_eq fetchedTwoDays 0 1 hmin hmax]
  simp [show ((1:ℤ) + 1 - 0).toNat = 2 from rfl, show List.range 2 = [0, 1] from rfl,
    dayAggregate, fetchedTwoDays, List.filter_cons]

lemma prepare_fetchedTenDays :
    prepare_demand_data fetchedTenDays
      = [{ date := 0, quantity := 1, revenue := 3 },
         { date := 1, quantity := 1, revenue := 3 },
         { date := 2, quantity := 1, revenue := 3 },
         { date := 3, quantity := 1, revenue := 1 },
         { date := 4, quantity := 1, revenue := 1 },
         { date := 5, quantity := 1, revenue := 1 },
         { date := 6, quantity := 1, revenue := 1 },
         { date := 7, quantity := 1, revenue := 1 },
         { date := 8, quantity := 1, revenue := 1 },
         { date := 9, quantity := 1, revenue := 1 }] := by
  have hmin : listMinO (fetchedTenDays.map (·.date)) = some 0 := by
    norm_num [fetchedTenDays, listMinO, min_def]
  have hmax : listMaxO (fetchedTenDays.map (·.date)) = some 9 := by
    norm_num [fetchedTenDays, listMaxO, max_def]
  rw [prepare_demand_data, if_neg (by simp [fetchedTenDays]),
    prepare_time_series_data_eq fetchedTenDays 0 9 hmin hmax]
  simp [show ((9:ℤ) + 1 - 0).toNat = 10 from rfl,
    show List.range 10 = [0, 1, 2, 3, 4, 5, 6, 7, 8, 9] from rfl,
    dayAggregate, fetchedTenDays, List.filter_cons]

lemma fitted_fetchedTwoDays :
    fittedModel stdZero (prepare_demand_data fetchedTwoDays) 7
      = { model_type := "moving_average", window_size := 2, moving_avg := 10, std_dev := 0 } := by
  rw [fittedModel, prepare_fetchedTwoDays]
  norm_num [nominalWindow, stdZero]

lemma vals_fetchedTwoDays :
    forecastValues noiseDrop (fittedModel stdZero (prepare_demand_data fetchedTwoDays) 7)
      (prepare_demand_data fetchedTwoDays) 7 = [0, 10, 10, 10, 10, 10, 10] := by
  rw [fitted_fetchedTwoDays, prepare_fetchedTwoDays]
  norm_num [forecastValues, trendOf, noiseDrop, show (7 : ℤ).toNat = 7 from rfl,
    show List.range 7 = [0, 1, 2, 3, 4, 5, 6] from rfl, max_def]

lemma fitted_fetchedTenDays :
    fittedModel stdZero (prepare_demand_data fetchedTenDays) 7
      = { model_type := "moving_average", window_size := 7, moving_avg := 1, std_dev := 0 } := by
  rw [fittedModel, prepare_fetchedTenDays]
  norm_num [nominalWindow, stdZero]

lemma vals_fetchedTenDays :
    forecastValues noiseZero (fittedModel stdZero (prepare_demand_data fetchedTenDays) 7)
      (prepare_demand_data fetchedTenDays) 7 = [1, 1, 1, 1, 1, 1, 1] := by
  rw [fitted_fetchedTenDays, prepare_fetchedTenDays]
  norm_num [forecastValues, trendOf, noiseZero, show (7 : ℤ).toNat = 7 from rfl,
    show List.range 7 = [0, 1, 2, 3, 4, 5, 6] from rfl, max_def]

lemma gffp_fetchedTenDays :
    generate_forecast_for_period stdZero sqrtZero keyZero keyZero noiseZero
      fetchedTenDays "week"
      = .ok (some (reportOf stdZero sqrtZero keyZero keyZero noiseZero
          (prepare_demand_data fetchedTenDays) 7 9)) := by
  have hd : prepare_demand_data fetchedTenDays ≠ [] := by
    rw [prepare_fetchedTenDays]
    simp
  have hmax : listMaxO ((prepare_demand_data fetchedTenDays).map (·.date)) = some 9 := by
    rw [prepare_fetchedTenDays]
    norm_num [listMaxO, max_def]
  rw [generate_forecast_for_period]
  rw [show periodMap "week" = some 7 from rfl]
  exact reportFromData_ok stdZero sqrtZero keyZero keyZero noiseZero
    (prepare_demand_data fetchedTenDays) 7 9 hd (by norm_num) hmax

/-- C2 (counterexample): on ten one-unit days whose price is 3 for the
first three days and 1 for the last seven, with horizon `"week"` (fit
window 7, all draws 0), the first forecast row's revenue is `8/5` — the
whole-series price — although the quantity forecast is `1` and the fit
window's price ratio is `1`; so revenue ≠ quantity × (fit-window ratio). -/
theorem c2_counterexample :
    reportField (fun r => r.revenue.head?)
      (generate_forecast_for_period stdZero sqrtZero keyZero keyZero noiseZero
        fetchedTenDays "week") = some (some (.finite (8 / 5))) ∧
    reportField (fun r => r.values.head?)
      (generate_forecast_for_period stdZero sqrtZero keyZero keyZero noiseZero
        fetchedTenDays "week") = some (some 1) ∧
    specFitWindowPrice (prepare_demand_data fetchedTenDays) 7 = 1 ∧
    (8 / 5 : ℚ) ≠ 1 * specFitWindowPrice (prepare_demand_data fetchedTenDays) 7 := by
  have hprice : avgPriceOf (prepare_demand_data fetchedTenDays) = .finite (8 / 5) := by
    rw [avgPriceOf, prepare_fetchedTenDays]
    norm_num [totalRevenue, totalQuantity, FloatVal.fdiv]
  have hspec : specFitWindowPrice (prepare_demand_data fetchedTenDays) 7 = 1 := by
    rw [specFitWindowPrice, prepare_fetchedTenDays]
    norm_num [List.rtake]
  refine ⟨?_, ?_, hspec, ?_⟩
  · rw [gffp_fetchedTenDays]
    simp only [reportField, reportOf, vals_fetchedTenDays, hprice]
    norm_num [revenueCol, FloatVal.fmul]
  · rw [gffp_fetchedTenDays]
    simp only [reportField, reportOf, vals_fetchedTenDays]
    norm_num
  · rw [hspec]
    norm_num

/-- C3 (counterexample): two runs of `generate_forecast` with the same
model, series, horizon, flag and confidence level — differing only in
the values drawn from the ambient random stream, which no parameter
controls — produce different outputs. -/
theorem c3_counterexample :
    generate_forecast noiseZero modelTwo seriesTwo true (95 / 100) 2
      ≠ generate_forecast noiseOne modelTwo seriesTwo true (95 / 100) 2 := by
  have hmax : listMaxO (seriesTwo.map (·.date)) = some 1 := by
    norm_num [seriesTwo, listMaxO, max_def]
  have hv0 : forecastValues noiseZero modelTwo seriesTwo 2 = [7, 8] := by
    norm_num [forecastValues, trendOf, seriesTwo, modelTwo, noiseZero,
      show (2 : ℤ).toNat = 2 from rfl, show List.range 2 = [0, 1] from rfl, max_def]
  have hv1 : forecastValues noiseOne modelTwo seriesTwo 2 = [8, 9] := by
    norm_num [forecastValues, trendOf, seriesTwo, modelTwo, noiseOne,
      show (2 : ℤ).toNat = 2 from rfl, show List.range 2 = [0, 1] from rfl, max_def]
  rw [generate_forecast_eq noiseZero modelTwo seriesTwo true (95 / 100) 2 1 rfl
      (by norm_num) hmax,
    generate_forecast_eq noiseOne modelTwo seriesTwo true (95 / 100) 2 1 rfl
      (by norm_num) hmax]
  intro h
  have hv : forecastValues noiseZero modelTwo seriesTwo 2
      = forecastValues noiseOne modelTwo seriesTwo 2 :=
    congrArg ForecastDF.values (Except.ok.inj h)
  rw [hv0, hv1] at hv
  have : (7 : ℚ) = 8 := by
    simpa using congrArg (fun l => l.head?.getD 0) hv
  norm_num at this

/-- C10: the two report divisions are unguarded.  With one observed day
of quantity 0 and amount 5 (valid input), `average_price_per_unit` is
`5 / 0 = inf`; with a two-day series of quantity 10 and a first draw of
−10, the first point forecast is clipped to 0, its revenue is 0, and
`revenue_growth_percentage` divides by it, giving `inf` — in both cases
the call succeeds with non-finite metrics instead of a typed error. -/
theorem c10_unguarded_divisions :
    reportField (fun r => r.revenue_metrics.average_price_per_unit)
      (generate_forecast_for_period stdZero sqrtZero keyZero keyZero noiseZero
        fetchedZeroQty "week") = some .infVal ∧
    reportField (fun r => r.revenue_metrics.revenue_growth_percentage)
      (generate_forecast_for_period stdZero sqrtZero keyZero keyZero noiseDrop
        fetchedTwoDays "week") = some .infVal ∧
    reportField (fun r => r.values.head?)
      (generate_forecast_for_period stdZero sqrtZero keyZero keyZero noiseDrop
        fetchedTwoDays "week") = some (some 0) := by
  have hdA : prepare_demand_data fetchedZeroQty ≠ [] := by
    rw [prepare_fetchedZeroQty]
    simp
  have hmaxA : listMaxO ((prepare_demand_data fetchedZeroQty).map (·.date)) = some 0 := by
    rw [prepare_fetchedZeroQty]
    norm_num [listMaxO]
  have hA : generate_forecast_for_period stdZero sqrtZero keyZero keyZero noiseZero
      fetchedZeroQty "week"
      = .ok (some (reportOf stdZero sqrtZero keyZero keyZero noiseZero
          (prepare_demand_data fetchedZeroQty) 7 0)) := by
    rw [generate_forecast_for_period, show periodMap "week" = some 7 from rfl]
    exact reportFromData_ok stdZero sqrtZero keyZero keyZero noiseZero
      (prepare_demand_data fetchedZeroQty) 7 0 hdA (by norm_num) hmaxA
  have hdB : prepare_demand_data fetchedTwoDays ≠ [] := by
    rw [prepare_fetchedTwoDays]
    simp
  have hmaxB : listMaxO ((prepare_demand_data fetchedTwoDays).map (·.date)) = some 1 := by
    rw [prepare_fetchedTwoDays]
    norm_num [listMaxO, max_def]
  have hB : generate_forecast_for_period stdZero sqrtZero keyZero keyZero noiseDrop
      fetchedTwoDays "week"
      = .ok (some (reportOf stdZero sqrtZero keyZero keyZero noiseDrop
          (prepare_demand_data fetchedTwoDays) 7 1)) := by
    rw [generate_forecast_for_period, show periodMap "week" = some 7 from rfl]
    exact reportFromData_ok stdZero sqrtZero keyZero keyZero noiseDrop
      (prepare_demand_data fetchedTwoDays) 7 1 hdB (by norm_num) hmaxB
  have hpriceA : avgPriceOf (prepare_demand_data fetchedZeroQty) = .infVal := by
    rw [avgPriceOf, prepare_fetchedZeroQty]
    norm_num [totalRevenue, totalQuantity, FloatVal.fdiv]
  have hpriceB : avgPriceOf (prepare_demand_data fetchedTwoDays) = .finite 2 := by
    rw [avgPriceOf, prepare_fetchedTwoDays]
    norm_num [totalRevenue, totalQuantity, FloatVal.fdiv]
  refine ⟨?_, ?_, ?_⟩
  · rw [hA]
    simp only [reportField, reportOf, hpriceA]
  · rw [hB]
    simp only [reportField, reportOf, hpriceB, vals_fetchedTwoDays]
    norm_num [revenueCol, FloatVal.fmul, FloatVal.fsub, FloatVal.fadd, FloatVal.fneg,
      FloatVal.fdiv]
  · rw [hB]
    simp only [reportField, reportOf, vals_fetchedTwoDays]
    norm_num

/-! ### Witnesses -/

/-- A second stream that agrees with `noiseZero` on the first two draws. -/
def noiseTail : ℚ → ℕ → ℚ := fun _ i => if i < 2 then 0 else 99

theorem c1_witness :
    generate_forecast_for_period stdZero sqrtZero keyZero keyZero noiseZero [] "decade"
      = .error .valueError ∧
    generate_forecast_for_period stdZero sqrtZero keyZero keyZero noiseZero [] "week"
      = .ok none :=
  ⟨(c1_exceptions_propagate stdZero sqrtZero keyZero keyZero noiseZero [] "decade").1
      (by simp [periodMap]),
   (c1_exceptions_propagate stdZero sqrtZero keyZero keyZero noiseZero [] "week").2 7
      (by simp [periodMap]) rfl⟩

theorem c2_witness :
    (periodMap "week" = some 7 ∧ prepare_demand_data fetchedTwoDays ≠ [] ∧
      totalQuantity (prepare_demand_data fetchedTwoDays) ≠ 0) ∧
    (∃ r, generate_forecast_for_period stdZero sqrtZero keyZero keyZero noiseZero
        fetchedTwoDays "week" = .ok (some r) ∧
      r.revenue = r.values.map (fun q => FloatVal.finite
        (q * (totalRevenue (prepare_demand_data fetchedTwoDays)
              / totalQuantity (prepare_demand_data fetchedTwoDays)))) ∧
      r.revenue_lower_bound = r.lower_bound.map (fun q => FloatVal.finite
        (q * (totalRevenue (prepare_demand_data fetchedTwoDays)
              / totalQuantity (prepare_demand_data fetchedTwoDays)))) ∧
      r.revenue_upper_bound = r.upper_bound.map (fun q => FloatVal.finite
        (q * (totalRevenue (prepare_demand_data fetchedTwoDays)
              / totalQuantity (prepare_demand_data fetchedTwoDays))))) :=
  ⟨⟨by simp [periodMap],
    by rw [prepare_fetchedTwoDays]; simp,
    by rw [prepare_fetchedTwoDays]; norm_num [totalQuantity]⟩,
   c2_revenue_uses_whole_series_price stdZero sqrtZero keyZero keyZero noiseZero
     fetchedTwoDays "week" 7 (by simp [periodMap])
     (by rw [prepare_fetchedTwoDays]; simp)
     (by rw [prepare_fetchedTwoDays]; norm_num [totalQuantity])⟩

theorem c3_witness :
    (∀ sd : ℚ, ∀ i < (2 : ℤ).toNat, noiseZero sd i = noiseTail sd i) ∧
    generate_forecast noiseZero modelTwo seriesTwo true (95 / 100) 2
      = generate_forecast noiseTail modelTwo seriesTwo true (95 / 100) 2 :=
  ⟨fun sd i hi => by
      rw [show (2 : ℤ).toNat = 2 from rfl] at hi
      simp [noiseZero, noiseTail, hi],
   c3_output_determined_by_draws noiseZero noiseTail modelTwo seriesTwo true (95 / 100) 2
     (fun sd i hi => by
       rw [show (2 : ℤ).toNat = 2 from rfl] at hi
       simp [noiseZero, noiseTail, hi])⟩

theorem c4_witness :
    train_forecast_model stdZero [] "moving_average" 30 = .error .indexError ∧
    seriesTwo ≠ [] ∧
    (∃ m, train_forecast_model stdZero seriesTwo "moving_average" 30 = .ok m) :=
  ⟨(c4_empty_series_raises stdZero 30 seriesTwo).1,
   by simp [seriesTwo],
   (c4_empty_series_raises stdZero 30 seriesTwo).2 (by simp [seriesTwo])⟩

theorem c5_witness :
    seriesTwo ≠ [] ∧
    (∃ m, train_forecast_model stdZero seriesTwo "moving_average" 30 = .ok m ∧
      m.window_size = min
        (if (30 : ℤ) ≤ 7 then 7 else if (30 : ℤ) ≤ 30 then 30
         else if (30 : ℤ) ≤ 90 then 90 else 365) seriesTwo.length ∧
      (seriesTwo.length <
          (if (30 : ℤ) ≤ 7 then 7 else if (30 : ℤ) ≤ 30 then 30
           else if (30 : ℤ) ≤ 90 then 90 else 365) →
        m.window_size = seriesTwo.length) ∧
      m.moving_avg = ((seriesTwo.map (·.quantity)).rtake m.window_size).sum
        / (m.window_size : ℚ)) :=
  ⟨by simp [seriesTwo],
   c5_window_clamp_and_mean stdZero seriesTwo 30 (by simp [seriesTwo])⟩

theorem c6_witness :
    (modelTwo.model_type = "moving_average" ∧ seriesTwo ≠ [] ∧ (0 : ℤ) < 2 ∧
      List.Chain' (fun a b => b.date = a.date + 1) seriesTwo) ∧
    (∃ df, generate_forecast noiseZero modelTwo seriesTwo true (95 / 100) 2 = .ok df ∧
      df.dates.length = (2 : ℤ).toNat ∧ df.values.length = (2 : ℤ).toNat ∧
      ∀ k (hk : k < df.dates.length),
        df.dates.get ⟨k, hk⟩
          = (seriesTwo.getLast (by simp [seriesTwo])).date + 1 + (k : ℤ)) :=
  ⟨⟨rfl, by simp [seriesTwo], by norm_num,
    by simp [seriesTwo, List.chain'_cons]⟩,
   c6_forecast_dates noiseZero modelTwo seriesTwo true (95 / 100) 2 rfl
     (by simp [seriesTwo]) (by norm_num)
     (by simp [seriesTwo, List.chain'_cons])⟩

theorem c7_witness :
    (modelTwo.model_type = "moving_average" ∧ seriesTwo ≠ [] ∧ (0 : ℤ) ≤ 2) ∧
    (∃ df, generate_forecast noiseZero modelTwo seriesTwo true (95 / 100) 2 = .ok df ∧
      ∀ k (hk : k < df.values.length),
        df.values.get ⟨k, hk⟩
          = max 0 (modelTwo.moving_avg
              + (if 1 < seriesTwo.length then
                  ((seriesTwo.map (·.quantity)).getLast?.getD 0
                      - (seriesTwo.map (·.quantity)).head?.getD 0)
                    / (seriesTwo.length : ℚ)
                 else 0) * ((k : ℚ) + 1)
                + noiseZero (modelTwo.std_dev * (0.5 : ℚ)) k) ∧
        0 ≤ df.values.get ⟨k, hk⟩) :=
  ⟨⟨rfl, by simp [seriesTwo], by norm_num⟩,
   c7_point_formula noiseZero modelTwo seriesTwo true (95 / 100) 2 rfl
     (by simp [seriesTwo]) (by norm_num)⟩

theorem c8_witness :
    (modelTwo.model_type = "moving_average" ∧ seriesTwo ≠ [] ∧ (0 : ℤ) ≤ 2) ∧
    (∃ df, generate_forecast noiseZero modelTwo seriesTwo true (95 / 100) 2 = .ok df ∧
      df.bounds = some (df.values.map (fun q => q - (1.96 : ℚ) * modelTwo.std_dev),
                        df.values.map (fun q => q + (1.96 : ℚ) * modelTwo.std_dev)) ∧
      generate_forecast noiseZero modelTwo seriesTwo true (95 / 100) 2
        = generate_forecast noiseZero modelTwo seriesTwo true (1 / 2) 2) :=
  ⟨⟨rfl, by simp [seriesTwo], by norm_num⟩,
   c8_interval_bounds noiseZero modelTwo seriesTwo (95 / 100) (1 / 2) 2 rfl
     (by simp [seriesTwo]) (by norm_num)⟩

theorem c9_witness :
    fetchedTwoDays ≠ [] ∧
    (∃ lo hi, listMinO (fetchedTwoDays.map (·.date)) = some lo
      ∧ listMaxO (fetchedTwoDays.map (·.date)) = some hi
      ∧ lo ≤ hi
      ∧ (prepare_time_series_data fetchedTwoDays).length = (hi + 1 - lo).toNat
      ∧ ∀ k (hk : k < (prepare_time_series_data fetchedTwoDays).length),
          (prepare_time_series_data fetchedTwoDays).get ⟨k, hk⟩
            = { date := lo + (k : ℤ),
                quantity := ((fetchedTwoDays.filter
                    (fun r => r.date == lo + (k : ℤ))).map (·.quantity)).sum,
                revenue := ((fetchedTwoDays.filter
                    (fun r => r.date == lo + (k : ℤ))).map (·.amount)).sum }) :=
  ⟨by simp [fetchedTwoDays],
   c9_prepared_series_invariant fetchedTwoDays (by simp [fetchedTwoDays])⟩
